import Mathlib

/-!  Verification of the PedroPathing `.pp` → Java converter
(`autonomous_formatter.py`).  The conversion logic (numeric
canonicalization `f`, identifier derivation `camel_case`, and the
code generator `convert` with its intermediate fragments) is embedded
shallowly below; JSON numbers are modelled as rationals, Python
`dict.get(k, d)` access as `Option.getD`, and mandatory `d[k]` access
as a plain structure field.  Python's `"%.3f"` rendering is modelled
as rounding half-to-even at the third decimal. -/

namespace PedroPathing

/-- A JSON point object of the `.pp` format.  `x` and `y` are read with
mandatory indexing in the source (`p["x"]`); `startDeg`, `degrees`,
`endDeg` and `heading` are read with `p.get(key, default)` and so are
optional. -/
structure Point where
  x : ℚ
  y : ℚ
  startDeg : Option ℚ := none
  degrees : Option ℚ := none
  endDeg : Option ℚ := none
  heading : Option String := none
  deriving DecidableEq, Inhabited

/-- One entry of the document's `lines` array: a named path segment. -/
structure Segment where
  name : String
  endPoint : Point
  controlPoints : List Point
  deriving DecidableEq, Inhabited

/-- The root `.pp` JSON document. -/
structure PathDocument where
  startPoint : Point
  lines : List Segment
  deriving DecidableEq, Inhabited

/-- Rounding half-to-even of the integer fraction `n / d` (for `d > 0`):
the rounding rule used by Python's fixed-point float formatting. -/
def roundHalfEvenInt (n : ℤ) (d : ℤ) : ℤ :=
  let fl := Int.fdiv n d
  let r2 := 2 * (n - fl * d)
  if r2 < d then fl
  else if d < r2 then fl + 1
  else if fl % 2 = 0 then fl else fl + 1

/-- Left-pad a fractional part to three digits. -/
def pad3 (n : ℕ) : String :=
  if n < 10 then "00" ++ toString n
  else if n < 100 then "0" ++ toString n
  else toString n

/-- Python's `f"{v:.3f}"`: render `v` with exactly three decimal digits,
that is, round `1000 * v` half-to-even (computed exactly on the
numerator and denominator) and typeset sign, integer part and a
three-digit fractional part. -/
def formatFixed3 (q : ℚ) : String :=
  let n : ℤ := roundHalfEvenInt (1000 * q.num) (q.den : ℤ)
  let sign : String := if n < 0 then "-" else ""
  sign ++ toString (n.natAbs / 1000) ++ "." ++ pad3 (n.natAbs % 1000)

/-- Python's `s.rstrip(c)` for a single character: drop every trailing
occurrence of `c`. -/
def rstripChar (c : Char) (s : String) : String :=
  ⟨(s.data.reverse.dropWhile (fun a => a == c)).reverse⟩

/-- Source `f` (line 8): `f"{v:.3f}".rstrip("0").rstrip(".")` — formats
floats like `85.7000 -> 85.7`. -/
def f (v : ℚ) : String :=
  rstripChar '.' (rstripChar '0' (formatFixed3 v))

/-- A character matched by the regex class `[_\s]`: an underscore or
(ASCII) whitespace. -/
def isSepChar (c : Char) : Bool :=
  c == '_' || c == ' ' || c == '\t' || c == '\n' || c == '\r' ||
  c == '\x0b' || c == '\x0c'

/-- Worker for `re.split(r'[_\s]+', s)`: walks the characters, flushing
the current token at the start of each separator run (`skipping` is true
while inside a separator run, whose token has already been flushed). -/
def splitTokensAux : Bool → List Char → List Char → List (List Char)
  | _, cur, [] => [cur.reverse]
  | skipping, cur, c :: cs =>
    if isSepChar c then
      if skipping then splitTokensAux true cur cs
      else cur.reverse :: splitTokensAux true [] cs
    else splitTokensAux false (c :: cur) cs

/-- `re.split(r'[_\s]+', s)`: split on maximal runs of underscores and
whitespace (with empty boundary tokens, as in Python). -/
def reSplit (s : String) : List String :=
  (splitTokensAux false [] s.data).map (fun cs => ⟨cs⟩)

/-- Python's `str.capitalize`: upper-case the first character and
lower-case the rest. -/
def pyCapitalize (s : String) : String :=
  match s.data with
  | [] => ""
  | c :: cs => ⟨c.toUpper :: cs.map Char.toLower⟩

/-- Python's `str.lower` (ASCII). -/
def pyLower (s : String) : String :=
  ⟨s.data.map Char.toLower⟩

/-- Source `camel_case` (line 14): converts names like
`'Prep_Artifacts_1' -> 'prepArtifacts1'`.  (`reSplit` never returns an
empty list, so the first match arm is unreachable.) -/
def camel_case (s : String) : String :=
  match reSplit s with
  | [] => ""
  | p :: ps => pyLower p ++ String.join (ps.map pyCapitalize)

/-- The fixed identifier of the start pose (source line 23). -/
def start_pose_name : String := "startPose"

/-- The start pose declaration (source line 24): heading comes from
`start.get("startDeg", 0)`. -/
def start_pose_line (start : Point) : String :=
  "private final Pose " ++ start_pose_name ++ " = new Pose(" ++ f start.x ++
  ", " ++ f start.y ++ ", Math.toRadians(" ++ f (start.startDeg.getD 0) ++
  ")); // Start position"

/-- Heading of a segment end point (source line 31):
`ep.get("degrees", ep.get("endDeg", 0))`. -/
def resolveDeg (ep : Point) : ℚ :=
  ep.degrees.getD (ep.endDeg.getD 0)

/-- One pose declaration (source line 32). -/
def poseLine (line : Segment) : String :=
  "private final Pose " ++ camel_case line.name ++ "Pose = new Pose(" ++
  f line.endPoint.x ++ ", " ++ f line.endPoint.y ++ ", Math.toRadians(" ++
  f (resolveDeg line.endPoint) ++ ")); // " ++ line.name

/-- The pose declarations, one per segment in input order (lines 27-32). -/
def poses (lines : List Segment) : List String :=
  lines.map poseLine

/-- The `PathChain` variable names (source line 35). -/
def path_names (lines : List Segment) : List String :=
  lines.map (fun line => camel_case line.name ++ "Path")

/-- The single `PathChain` declaration line (source line 36). -/
def path_vars (lines : List Segment) : String :=
  "private PathChain " ++ String.intercalate ", " (path_names lines) ++ ";"

/-- First fragment of a path-construction statement (source line 49). -/
def buildHeader (line : Segment) : String :=
  camel_case line.name ++ "Path = follower.pathBuilder()\n"

/-- The `.addPath` fragment (source lines 51-61): a `BezierLine` when the
segment has no control points, otherwise a `BezierCurve` through
`control_points[0]`. -/
def buildPathPart (prev_pose : String) (line : Segment) : String :=
  match line.controlPoints with
  | [] =>
      "        .addPath(new BezierLine(" ++ prev_pose ++ ", " ++
      (camel_case line.name ++ "Pose") ++ "))\n"
  | cp :: _ =>
      "        .addPath(new BezierCurve(\n" ++
      "                " ++ prev_pose ++ ",\n" ++
      "                new Pose(" ++ f cp.x ++ ", " ++ f cp.y ++
      "), // Control point\n" ++
      "                " ++ (camel_case line.name ++ "Pose") ++ "\n" ++
      "        ))\n"

/-- The heading-interpolation fragment (source lines 63-67). -/
def buildHeadingPart (prev_pose end_pose heading : String) : String :=
  if heading == "constant" then
    "        .setConstantHeadingInterpolation(" ++ end_pose ++
    ".getHeading())\n"
  else
    "        .setLinearHeadingInterpolation(" ++ prev_pose ++
    ".getHeading(), " ++ end_pose ++ ".getHeading())\n"

/-- One whole path-construction statement (the body of the loop at
source lines 42-70), starting from the pose named `prev_pose`. -/
def buildStmt (prev_pose : String) (line : Segment) : String :=
  buildHeader line ++ buildPathPart prev_pose line ++
  buildHeadingPart prev_pose (camel_case line.name ++ "Pose")
    (line.endPoint.heading.getD "linear") ++
  "        .build();"

/-- The loop of source lines 41-71: each statement starts from `prev_pose`
and the next iteration starts from this segment's end pose. -/
def build_lines_aux (prev_pose : String) : List Segment → List String
  | [] => []
  | line :: rest =>
      buildStmt prev_pose line ::
      build_lines_aux (camel_case line.name ++ "Pose") rest

/-- All path-construction statements; the chain starts at `startPose`. -/
def build_lines (lines : List Segment) : List String :=
  build_lines_aux start_pose_name lines

/-- One state-machine `case` (source lines 79-96): state `0` follows its
path and advances unconditionally, every later state only advances once
`follower.isBusy()` is false. -/
def updateCase (i : ℕ) (line : Segment) : String :=
  let name := camel_case line.name ++ "Path"
  if i == 0 then
    "case " ++ toString i ++ ":\n" ++
    "              follower.followPath(" ++ name ++ ");\n" ++
    "              setPathState(" ++ toString (i + 1) ++ ");\n" ++
    "              break;"
  else
    "case " ++ toString i ++ ":\n" ++
    "              if (!follower.isBusy()) \x7b\n" ++
    "                 follower.followPath(" ++ name ++ ");\n" ++
    "                 setPathState(" ++ toString (i + 1) ++ ");\n" ++
    "              \x7d\n" ++
    "              break;"

/-- The trailing do-nothing state (source lines 98-104). -/
def final_case (final_state : ℕ) : String :=
  "case " ++ toString final_state ++ ":\n" ++
  "              // Done\n" ++
  "              break;"

/-- The full transition table (source lines 75-104): one `case` per
segment, in input order, plus the final do-nothing state. -/
def update_lines (lines : List Segment) : List String :=
  lines.enum.map (fun p => updateCase p.1 p.2) ++ [final_case lines.length]

/-- Source line 106. -/
def update_state_machine (lines : List Segment) : String :=
  String.intercalate "\n\n            " (update_lines lines)

/-- Source `convert` (lines 19-182): assemble the final Java source from
the fragments above. -/
def convert (json_data : PathDocument) (class_name : String) : String :=
  let start := json_data.startPoint
  let lines := json_data.lines
  "package org.firstinspires.ftc.teamcode.opModes.autonomous;\n"
  ++ "import com.pedropathing.follower.Follower;\n"
  ++ "import com.pedropathing.geometry.BezierCurve;\n"
  ++ "import com.pedropathing.geometry.BezierLine;\n"
  ++ "import com.pedropathing.geometry.Pose;\n"
  ++ "import com.pedropathing.paths.PathChain;\n"
  ++ "import com.pedropathing.util.Timer;\n"
  ++ "import com.qualcomm.robotcore.eventloop.opmode.Autonomous;\n"
  ++ "import com.qualcomm.robotcore.eventloop.opmode.LinearOpMode;\n"
  ++ "\n"
  ++ "import org.firstinspires.ftc.teamcode.pedroPathing.Constants;\n"
  ++ "\n"
  ++ "@Autonomous\n"
  ++ "public class " ++ class_name ++ " extends LinearOpMode \x7b\n"
  ++ "    @Override\n"
  ++ "    public void runOpMode() throws InterruptedException \x7b\n"
  ++ "        initialize();\n"
  ++ "        waitForStart();\n"
  ++ "        play();\n"
  ++ "        if (isStopRequested()) return;\n"
  ++ "        while (opModeIsActive()) update();\n"
  ++ "    \x7d\n"
  ++ "    private void setPathState(int pState) \x7b\n"
  ++ "        pathState = pState;\n"
  ++ "        pathTimer.resetTimer();\n"
  ++ "    \x7d\n"
  ++ "\n"
  ++ "    private Follower follower;\n"
  ++ "    private Timer pathTimer;\n"
  ++ "    private int pathState;\n"
  ++ "\n"
  ++ "    // Start Pose\n"
  ++ "    " ++ start_pose_line start ++ "\n"
  ++ "\n"
  ++ "    // Trajectory Poses\n"
  ++ "    " ++ String.intercalate "\n    " (poses lines) ++ "\n"
  ++ "\n"
  ++ "    " ++ path_vars lines ++ "\n"
  ++ "\n"
  ++ "    public void buildPaths() \x7b\n"
  ++ "        " ++ String.intercalate "\n\n        " (build_lines lines) ++ "\n"
  ++ "    \x7d\n"
  ++ "\n"
  ++ "    public void autonomousPathUpdate() \x7b\n"
  ++ "        switch (pathState) \x7b\n"
  ++ "            " ++ update_state_machine lines ++ "\n"
  ++ "        \x7d\n"
  ++ "    \x7d\n"
  ++ "\n"
  ++ "    private void initialize() \x7b\n"
  ++ "        pathTimer = new Timer();\n"
  ++ "        follower = Constants.createFollower(hardwareMap);\n"
  ++ "        buildPaths();\n"
  ++ "        follower.setStartingPose(startPose);\n"
  ++ "    \x7d\n"
  ++ "\n"
  ++ "    private void play() \x7b\n"
  ++ "        setPathState(0);\n"
  ++ "    \x7d\n"
  ++ "\n"
  ++ "    private void update() \x7b\n"
  ++ "        follower.update();\n"
  ++ "        autonomousPathUpdate();\n"
  ++ "\n"
  ++ "        telemetry.addData(\"path state\", pathState);\n"
  ++ "        telemetry.addData(\"x\", follower.getPose().getX());\n"
  ++ "        telemetry.addData(\"y\", follower.getPose().getY());\n"
  ++ "        telemetry.addData(\"heading\", follower.getPose().getHeading());\n"
  ++ "        telemetry.update();\n"
  ++ "    \x7d\n"
  ++ "\x7d\n"

/-! ## Helper lemmas -/

theorem splitTokensAux_no_sep (cs : List Char) (cur : List Char)
    (h : ∀ c ∈ cs, isSepChar c = false) :
    splitTokensAux false cur cs = [cur.reverse ++ cs] := by
  induction cs generalizing cur with
  | nil => simp [splitTokensAux]
  | cons c cs ih =>
    have hc : isSepChar c = false := h c (by simp)
    simp [splitTokensAux, hc, ih (c :: cur) (fun a ha => h a (by simp [ha]))]

theorem reSplit_no_sep (s : String) (h : ∀ c ∈ s.data, isSepChar c = false) :
    reSplit s = [s] := by
  unfold reSplit
  rw [splitTokensAux_no_sep s.data [] h]
  simp

/-! ## C4: identifier derivation -/

/-- **C4**: `camel_case` splits on runs of underscores/whitespace,
lower-cases the first token, capitalizes the rest and concatenates:
`camel_case "Prep_Artifacts_1" = "prepArtifacts1"`,
`camel_case "go" = "go"`, and every single-token name (one with no
separator character) is fully lower-cased. -/
theorem camel_case_correct :
    camel_case "Prep_Artifacts_1" = "prepArtifacts1" ∧
    camel_case "go" = "go" ∧
    ∀ s : String, (∀ c ∈ s.data, isSepChar c = false) →
      camel_case s = pyLower s := by
  refine ⟨rfl, rfl, fun s h => ?_⟩
  unfold camel_case
  rw [reSplit_no_sep s h]
  simp [String.join]

theorem camel_case_correct_witness :
    camel_case "Auto" = pyLower "Auto" :=
  camel_case_correct.2.2 "Auto" (by decide)

/-! ## C5: numeric canonicalization -/

/-- **C5**: `f` renders a value to three decimal digits, then strips
trailing zeros and a trailing decimal point (`f 85.7 = "85.7"`,
`f 90.0 = "90"`, `f 12.345 = "12.345"`, `f 12.3456 = "12.346"`), and
every numeric field that reaches the output — start pose coordinates and
heading, segment end-pose coordinates and headings, control-point
coordinates — is rendered through `f`. -/
theorem canon_correct :
    f (85.7 : ℚ) = "85.7" ∧
    f (90.0 : ℚ) = "90" ∧
    f (12.345 : ℚ) = "12.345" ∧
    f (12.3456 : ℚ) = "12.346" ∧
    (∀ start : Point, start_pose_line start =
      "private final Pose startPose = new Pose(" ++ f start.x ++ ", " ++
      f start.y ++ ", Math.toRadians(" ++ f (start.startDeg.getD 0) ++
      ")); // Start position") ∧
    (∀ line : Segment, poseLine line =
      "private final Pose " ++ camel_case line.name ++ "Pose = new Pose(" ++
      f line.endPoint.x ++ ", " ++ f line.endPoint.y ++
      ", Math.toRadians(" ++ f (resolveDeg line.endPoint) ++ ")); // " ++
      line.name) ∧
    (∀ prev_pose : String, ∀ line : Segment, ∀ cp : Point,
      ∀ rest : List Point, line.controlPoints = cp :: rest →
      buildPathPart prev_pose line =
        "        .addPath(new BezierCurve(\n                " ++ prev_pose ++
        ",\n                new Pose(" ++ f cp.x ++ ", " ++ f cp.y ++
        "), // Control point\n                " ++ camel_case line.name ++
        "Pose\n        ))\n") := by
  refine ⟨?_, ?_, ?_, ?_, fun start => ?_, fun line => ?_,
    fun prev_pose line cp rest hcp => ?_⟩
  · rw [show (85.7 : ℚ) = mkRat 857 10 by rw [Rat.mkRat_eq_div]; norm_num]
    decide
  · rw [show (90.0 : ℚ) = mkRat 90 1 by rw [Rat.mkRat_eq_div]; norm_num]
    decide
  · rw [show (12.345 : ℚ) = mkRat 12345 1000 by
      rw [Rat.mkRat_eq_div]; norm_num]
    decide
  · rw [show (12.3456 : ℚ) = mkRat 123456 10000 by
      rw [Rat.mkRat_eq_div]; norm_num]
    decide
  · apply String.ext
    simp [start_pose_line, start_pose_name, String.data_append,
      List.append_assoc]
  · apply String.ext
    simp [poseLine, String.data_append, List.append_assoc]
  · apply String.ext
    simp [buildPathPart, hcp, String.data_append, List.append_assoc]

/-- A sample control point used in concrete instantiations. -/
def samplePoint : Point := { x := 1, y := 2 }

/-- A sample one-control-point segment used in concrete instantiations. -/
def sampleCurveSeg : Segment :=
  { name := "c", endPoint := { x := 7, y := 8 }, controlPoints := [samplePoint] }

theorem canon_correct_witness :
    buildPathPart "startPose" sampleCurveSeg =
      "        .addPath(new BezierCurve(\n                startPose" ++
      ",\n                new Pose(" ++ f samplePoint.x ++ ", " ++
      f samplePoint.y ++
      "), // Control point\n                " ++ camel_case "c" ++
      "Pose\n        ))\n" :=
  canon_correct.2.2.2.2.2.2 "startPose" sampleCurveSeg samplePoint [] rfl

/-! ## C6: end-point heading resolution -/

/-- **C6**: a segment end point's emitted heading is its `degrees` field
when present (taking precedence over `endDeg`), else its `endDeg` field
when present, else `0`; the pose declaration emits exactly this value. -/
theorem heading_resolution_correct :
    (∀ ep : Point, ∀ d : ℚ, ep.degrees = some d → resolveDeg ep = d) ∧
    (∀ ep : Point, ∀ d : ℚ, ep.degrees = none → ep.endDeg = some d →
      resolveDeg ep = d) ∧
    (∀ ep : Point, ep.degrees = none → ep.endDeg = none →
      resolveDeg ep = 0) ∧
    (∀ line : Segment, ∃ pre : String, poseLine line =
      pre ++ "Math.toRadians(" ++ f (resolveDeg line.endPoint) ++ ")); // " ++
      line.name) := by
  refine ⟨fun ep d h => ?_, fun ep d h h' => ?_, fun ep h h' => ?_,
    fun line => ?_⟩
  · simp [resolveDeg, h]
  · simp [resolveDeg, h, h']
  · simp [resolveDeg, h, h']
  · refine ⟨"private final Pose " ++ camel_case line.name ++
      "Pose = new Pose(" ++ f line.endPoint.x ++ ", " ++ f line.endPoint.y ++
      ", ", ?_⟩
    apply String.ext
    simp [poseLine, String.data_append, List.append_assoc]

/-- A sample end point with both `degrees` and `endDeg` present. -/
def sampleBothDegs : Point := { x := 0, y := 0, degrees := some 90, endDeg := some 45 }

theorem heading_resolution_correct_witness :
    resolveDeg sampleBothDegs = 90 :=
  heading_resolution_correct.1 sampleBothDegs 90 rfl

/-! ## C7: heading mode selection -/

/-- **C7**: a segment whose end point has `heading: "constant"` gets a
constant-heading directive mentioning only its own end pose; any other
heading value (or an absent one) gets a linear-heading directive
referencing the previous pose and the current end pose. -/
theorem heading_mode_correct :
    (∀ prev_pose : String, ∀ line : Segment,
      line.endPoint.heading = some "constant" →
      buildStmt prev_pose line =
        buildHeader line ++ buildPathPart prev_pose line ++
        ("        .setConstantHeadingInterpolation(" ++
          camel_case line.name ++ "Pose.getHeading())\n") ++
        "        .build();") ∧
    (∀ prev_pose : String, ∀ line : Segment,
      line.endPoint.heading ≠ some "constant" →
      buildStmt prev_pose line =
        buildHeader line ++ buildPathPart prev_pose line ++
        ("        .setLinearHeadingInterpolation(" ++ prev_pose ++
          ".getHeading(), " ++ camel_case line.name ++
          "Pose.getHeading())\n") ++
        "        .build();") := by
  constructor
  · intro prev_pose line h
    apply String.ext
    simp [buildStmt, buildHeadingPart, h, String.data_append,
      List.append_assoc]
  · intro prev_pose line h
    have hb : (line.endPoint.heading.getD "linear" == "constant") = false := by
      cases hh : line.endPoint.heading with
      | none => decide
      | some v =>
        have hv : v ≠ "constant" := fun e => h (by rw [hh, e])
        simpa using hv
    apply String.ext
    simp [buildStmt, buildHeadingPart, hb, String.data_append,
      List.append_assoc]

/-- A sample segment whose end point selects constant heading. -/
def sampleConstSeg : Segment :=
  { name := "k", endPoint := { x := 1, y := 1, heading := some "constant" }, controlPoints := [] }

/-! ## C2: chaining invariant -/

/-- The start pose identifier that the chaining invariant predicts for
construction statement `i`: statement `0` starts from the start pose,
and statement `i + 1` starts from segment `i`'s end pose identifier. -/
def prevPoseName (lines : List Segment) : ℕ → String
  | 0 => start_pose_name
  | i + 1 => camel_case ((lines.getD i default).name) ++ "Pose"

theorem build_lines_aux_getElem (lines : List Segment) (prev : String)
    (i : ℕ) :
    (build_lines_aux prev lines)[i]? =
      (lines[i]?).map
        (buildStmt (if i = 0 then prev else prevPoseName lines i)) := by
  induction lines generalizing prev i with
  | nil => simp [build_lines_aux]
  | cons line rest ih =>
    cases i with
    | zero => simp [build_lines_aux]
    | succ j =>
      simp only [build_lines_aux, List.getElem?_cons_succ]
      rw [ih]
      cases j with
      | zero => simp [prevPoseName]
      | succ k => simp [prevPoseName, List.getD_cons_succ]

/-- **C2**: in the emitted path-construction statements, a segment with
no control point is built as a `BezierLine` starting from `prev_pose`,
and statement `i` of `build_lines` always starts from
`prevPoseName lines i` — the fixed start pose for `i = 0`, and segment
`i - 1`'s end pose identifier for `i > 0`. -/
theorem chaining_invariant :
    (∀ prev_pose : String, ∀ line : Segment, line.controlPoints = [] →
      buildPathPart prev_pose line =
        "        .addPath(new BezierLine(" ++ prev_pose ++ ", " ++
        camel_case line.name ++ "Pose))\n") ∧
    (∀ lines : List Segment, ∀ i : ℕ,
      (build_lines lines)[i]? =
        (lines[i]?).map (buildStmt (prevPoseName lines i))) := by
  constructor
  · intro prev_pose line h
    apply String.ext
    simp [buildPathPart, h, String.data_append, List.append_assoc]
  · intro lines i
    rw [build_lines, build_lines_aux_getElem lines start_pose_name i]
    cases i <;> simp [prevPoseName]

theorem chaining_invariant_witness :
    buildPathPart "startPose" sampleConstSeg =
      "        .addPath(new BezierLine(" ++ "startPose" ++ ", " ++
      camel_case "k" ++ "Pose))\n" :=
  chaining_invariant.1 "startPose" sampleConstSeg rfl

/-! ## C1: state-machine shape -/

/-- **C1**: for `k` segments the transition table has `k + 1` states in
input order: entry `i < k` is the `case` for segment `i`, entry `k` is
the terminal case; state `0` follows its path and advances
unconditionally, every state `i > 0` follows its path and advances only
inside an `if (!follower.isBusy())` guard, and the terminal state only
breaks — it performs no action and never calls `setPathState`. -/
theorem state_machine_correct :
    (∀ lines : List Segment,
      (update_lines lines).length = lines.length + 1) ∧
    (∀ lines : List Segment, ∀ i : ℕ, i < lines.length →
      (update_lines lines)[i]? = (lines[i]?).map (updateCase i)) ∧
    (∀ lines : List Segment,
      (update_lines lines)[lines.length]? =
        some (final_case lines.length)) ∧
    (∀ line : Segment, updateCase 0 line =
      "case 0:\n              follower.followPath(" ++
      camel_case line.name ++
      "Path);\n              setPathState(1);\n              break;") ∧
    (∀ i : ℕ, ∀ line : Segment, 0 < i → updateCase i line =
      "case " ++ toString i ++
      ":\n              if (!follower.isBusy()) \x7b\n                 follower.followPath(" ++
      camel_case line.name ++
      "Path);\n                 setPathState(" ++ toString (i + 1) ++
      ");\n              \x7d\n              break;") ∧
    (∀ k : ℕ, final_case k =
      "case " ++ toString k ++
      ":\n              // Done\n              break;") := by
  refine ⟨fun lines => ?_, fun lines i hi => ?_, fun lines => ?_,
    fun line => ?_, fun i line hpos => ?_, fun k => ?_⟩
  · simp [update_lines]
  · rw [update_lines,
      List.getElem?_append_left (by simpa using hi),
      List.getElem?_map, List.getElem?_enum]
    cases lines[i]? <;> rfl
  · rw [update_lines,
      List.getElem?_append_right (by simp)]
    simp
  · apply String.ext
    simp [updateCase, String.data_append, List.append_assoc,
      show toString (0 : ℕ) = "0" from rfl,
      show toString (1 : ℕ) = "1" from rfl]
  · have hb : (i == 0) = false := by
      simpa using Nat.pos_iff_ne_zero.mp hpos
    apply String.ext
    simp [updateCase, hb, String.data_append, List.append_assoc]
  · apply String.ext
    simp [final_case, String.data_append, List.append_assoc]

theorem state_machine_correct_witness :
    (update_lines [sampleConstSeg])[0]? =
      (([sampleConstSeg] : List Segment)[0]?).map (updateCase 0) :=
  state_machine_correct.2.1 [sampleConstSeg] 0 (by simp)

/-! ## C3: two control points are silently truncated -/

/-- A segment carrying two control points: the boundary case of C3. -/
def segTwoCp : Segment :=
  { name := "Two_Cp", endPoint := { x := 7, y := 8 }, controlPoints := [{ x := 1, y := 2 }, { x := 3, y := 4 }] }

/-- The same segment with only its first control point. -/
def segFirstCpOnly : Segment :=
  { name := "Two_Cp", endPoint := { x := 7, y := 8 }, controlPoints := [{ x := 1, y := 2 }] }

/-- A document whose single segment has two control points. -/
def docTwoCp : PathDocument :=
  { startPoint := { x := 0, y := 0 }, lines := [segTwoCp] }

/-- The same document with the second control point removed. -/
def docFirstCpOnly : PathDocument :=
  { startPoint := { x := 0, y := 0 }, lines := [segFirstCpOnly] }

/-- **C3** (violated by the code): the converter never rejects a segment
with two control points; it emits output that silently uses only the
first control point — byte-identical to the output for the document
with the second control point deleted. -/
theorem two_control_points_truncated :
    segTwoCp.controlPoints.length = 2 ∧
    convert docTwoCp "Auto" = convert docFirstCpOnly "Auto" :=
  ⟨rfl, rfl⟩

/-! ## C8: empty / whitespace-only names are accepted, not rejected -/

theorem splitTokensAux_all_sep (cs : List Char) (b : Bool)
    (h : ∀ c ∈ cs, isSepChar c = true) :
    ∀ t ∈ splitTokensAux b [] cs, t = [] := by
  induction cs generalizing b with
  | nil => intro t ht; simpa [splitTokensAux] using ht
  | cons c cs ih =>
    intro t ht
    have hc : isSepChar c = true := h c (by simp)
    have hrest := ih true (fun a ha => h a (by simp [ha]))
    cases b with
    | true =>
      simp [splitTokensAux, hc] at ht
      exact hrest t ht
    | false =>
      simp [splitTokensAux, hc] at ht
      rcases ht with rfl | ht
      · rfl
      · exact hrest t ht

theorem reSplit_all_sep (s : String) (h : ∀ c ∈ s.data, isSepChar c = true) :
    ∀ t ∈ reSplit s, t = "" := by
  intro t ht
  obtain ⟨cs, hcs, rfl⟩ := List.mem_map.mp ht
  have hnil : cs = [] := splitTokensAux_all_sep s.data false h cs hcs
  subst hnil
  rfl

theorem foldl_append_all_empty (ls : List String) (acc : String)
    (h : ∀ x ∈ ls, x = "") :
    ls.foldl (fun r t => r ++ t) acc = acc := by
  induction ls generalizing acc with
  | nil => rfl
  | cons x ls ih =>
    have hx : x = "" := h x (by simp)
    subst hx
    simpa using ih acc (fun y hy => h y (by simp [hy]))

theorem camel_case_all_sep (s : String)
    (h : ∀ c ∈ s.data, isSepChar c = true) :
    camel_case s = "" := by
  have hall := reSplit_all_sep s h
  cases hsplit : reSplit s with
  | nil => unfold camel_case; rw [hsplit]
  | cons p ps =>
    unfold camel_case
    rw [hsplit]
    have hp : p = "" := hall p (by rw [hsplit]; simp)
    have hps : ∀ x ∈ ps.map pyCapitalize, x = "" := by
      intro x hx
      obtain ⟨y, hy, rfl⟩ := List.mem_map.mp hx
      rw [hall y (by rw [hsplit]; simp [hy])]
      rfl
    subst hp
    simp [String.join, pyLower,
      foldl_append_all_empty (ps.map pyCapitalize) _ hps]

/-- A segment whose name is the empty string. -/
def segEmptyName : Segment :=
  { name := "", endPoint := { x := 5, y := 6 }, controlPoints := [] }

/-- A document containing only the empty-named segment. -/
def docEmptyName : PathDocument :=
  { startPoint := { x := 0, y := 0 }, lines := [segEmptyName] }

/-- **C8 counterexample**: a document with an empty segment name is NOT
rejected — conversion has no failure path and produces a complete
program with a degenerate pose declaration named just `Pose`. -/
theorem empty_name_no_error :
    camel_case "" = "" ∧
    camel_case " _ " = "" ∧
    poseLine segEmptyName =
      "private final Pose Pose = new Pose(5, 6, Math.toRadians(0)); // " ∧
    convert docEmptyName "Auto" ≠ "" := by
  refine ⟨rfl, by decide, by decide, by decide⟩

/-- **C8 amended**: identifier derivation is pure and total over every
string, the empty and whitespace-only ones included; a document with
such a segment name converts without error, the derived identifier
being the empty string. -/
theorem empty_name_amended :
    (∀ s : String, (∀ c ∈ s.data, isSepChar c = true) →
      camel_case s = "") ∧
    (∀ ep : Point, ∀ cps : List Point,
      poseLine { name := "", endPoint := ep, controlPoints := cps } =
        "private final Pose Pose = new Pose(" ++ f ep.x ++ ", " ++
        f ep.y ++ ", Math.toRadians(" ++ f (resolveDeg ep) ++ ")); // ") := by
  constructor
  · exact camel_case_all_sep
  · intro ep cps
    apply String.ext
    simp [poseLine, show camel_case "" = "" from rfl,
      String.data_append, List.append_assoc]

theorem empty_name_amended_witness :
    camel_case "___" = "" :=
  empty_name_amended.1 "___" (by decide)

/-! ## C9: the start heading comes from `startDeg` only -/

/-- A start point carrying `degrees: 90` but no `startDeg`. -/
def startDegreesOnly : Point := { x := 0, y := 0, degrees := some 90 }

/-- **C9 counterexample**: the claim predicts that a start point with an
explicit `degrees` field is emitted with that heading; the code instead
reads only `startDeg` and emits `Math.toRadians(0)` here, even though
segment-end resolution (`resolveDeg`) would give 90. -/
theorem start_heading_counterexample :
    startDegreesOnly.degrees = some 90 ∧
    resolveDeg startDegreesOnly = 90 ∧
    start_pose_line startDegreesOnly =
      "private final Pose startPose = new Pose(0, 0, Math.toRadians(0)); // Start position" ∧
    start_pose_line startDegreesOnly ≠
      "private final Pose startPose = new Pose(0, 0, Math.toRadians(90)); // Start position" := by
  refine ⟨rfl, rfl, by decide, by decide⟩

/-- **C9 amended**: the document's start heading is resolved from the
start point's `startDeg` field when present, else `0`; its `degrees`
and `endDeg` fields are ignored.  A start point carrying an explicit
`startDeg` is emitted with exactly that heading. -/
theorem start_heading_amended :
    (∀ start : Point, ∀ d : ℚ, start.startDeg = some d →
      start_pose_line start =
        "private final Pose startPose = new Pose(" ++ f start.x ++ ", " ++
        f start.y ++ ", Math.toRadians(" ++ f d ++
        ")); // Start position") ∧
    (∀ start : Point, start.startDeg = none →
      start_pose_line start =
        "private final Pose startPose = new Pose(" ++ f start.x ++ ", " ++
        f start.y ++ ", Math.toRadians(0)); // Start position") := by
  constructor
  · intro start d h
    apply String.ext
    simp [start_pose_line, start_pose_name, h, String.data_append,
      List.append_assoc]
  · intro start h
    apply String.ext
    simp [start_pose_line, start_pose_name, h,
      show f 0 = "0" from rfl, String.data_append, List.append_assoc]

/-- A sample start point with an explicit `startDeg`. -/
def sampleStart : Point := { x := 3, y := 4, startDeg := some 7 }

theorem start_heading_amended_witness :
    start_pose_line sampleStart =
      "private final Pose startPose = new Pose(" ++ f sampleStart.x ++
      ", " ++ f sampleStart.y ++ ", Math.toRadians(" ++ f 7 ++
      ")); // Start position" :=
  start_heading_amended.1 sampleStart 7 rfl

/-! ## C10: the empty document -/

/-- A document with a start point but no segments. -/
def emptyDoc : PathDocument :=
  { startPoint := { x := 0, y := 0 }, lines := [] }

/-- **C10**: a document whose `lines` list is empty converts without
error (conversion is a total function on documents, and produces a
non-trivial program here), with no segment pose declarations, no
path-construction statements, and a transition table consisting of the
single terminal state `0`. -/
theorem empty_lines_correct :
    poses ([] : List Segment) = [] ∧
    path_names ([] : List Segment) = [] ∧
    build_lines ([] : List Segment) = [] ∧
    update_lines ([] : List Segment) = [final_case 0] ∧
    update_state_machine ([] : List Segment) =
      "case 0:\n              // Done\n              break;" ∧
    convert emptyDoc "Auto" ≠ "" := by
  refine ⟨rfl, rfl, rfl, rfl, by decide, by decide⟩

theorem heading_mode_correct_witness :
    buildStmt "startPose" sampleConstSeg =
      buildHeader sampleConstSeg ++ buildPathPart "startPose" sampleConstSeg ++
      ("        .setConstantHeadingInterpolation(" ++ camel_case "k" ++
        "Pose.getHeading())\n") ++
      "        .build();" :=
  heading_mode_correct.1 "startPose" sampleConstSeg rfl

end PedroPathing
